import Mathlib

/-!
Verification of the isolate lifecycle controller (`DartIsolate`,
declared in src/runtime/dart_isolate.h).  The repository ships only the
declaration header and the embedder tests, so the operational behavior of
each method is modelled from the specification (spec.md sections 3, 4.1,
4.2, 6 and 7) and from the doc comments in the header.  Ghost observation
fields (`fired_log`, `load_attempts`, `entry_log`) record events so that
"fires exactly once", "load attempted once" and "the entrypoint observes
phase Running" are statable; they do not influence control flow.
-/

namespace Engine

/-- The lifecycle phases, in the order declared by `DartIsolate::Phase`
(src/runtime/dart_isolate.h lines 71-113). -/
inductive Phase where
  | unknown
  | uninitialized
  | initialized
  | librariesSetup
  | ready
  | running
  | shutdown
deriving DecidableEq

/-- Position of a phase in the declared order, used to state that phase
transitions never move backward. -/
def Phase.idx : Phase → Nat
  | .unknown => 0
  | .uninitialized => 1
  | .initialized => 2
  | .librariesSetup => 3
  | .ready => 4
  | .running => 5
  | .shutdown => 6

/-- Modelled from the spec: the code source a controller's registered
child-isolate preparer re-applies to a spawned child ("a function value
used to re-apply library-loading policy to any child isolate spawned from
this one", spec.md section 3). -/
inductive CodeSource where
  | precompiled
  | kernels (ks : List Nat)
deriving DecidableEq

/-- Modelled from the spec: the external collaborators the controller
consults (spec.md section 6).  `aotConfigured` is whether the hosting VM
runs ahead-of-time code, `loadOk` is the VM's verdict on loading a list of
accumulated kernel buffers as libraries, `resolves` and
`resolvesInLibrary` are whether an entrypoint resolves in the root library
or in a named library. -/
structure Env where
  aotConfigured : Bool
  loadOk : List Nat → Bool
  resolves : String → Bool
  resolvesInLibrary : String → String → Bool

/-- Modelled from the spec: the state of one isolate lifecycle controller
(`DartIsolate`, src/runtime/dart_isolate.h lines 428-437).  Snapshots and
kernel mappings are represented by their reference identities (numbers):
two fields holding the same number model identity-equal shared references.
`fired_log`, `load_attempts` and `entry_log` are ghost observation logs. -/
structure DartIsolate where
  phase_ : Phase
  isolate_snapshot_ : Nat
  shared_snapshot_ : Nat
  kernel_buffers_ : List Nat
  shutdown_callbacks_ : List Nat
  child_isolate_preparer_ : Option CodeSource
  fired_log : List Nat
  load_attempts : List (List Nat)
  entry_log : List (String × Phase)
deriving DecidableEq

namespace DartIsolate

/-- `GetPhase` (src/runtime/dart_isolate.h lines 216-230). -/
def GetPhase (s : DartIsolate) : Phase := s.phase_

/-- Modelled from the spec: `PrepareForPrecompiledCode` — "valid only in
phase LibrariesSetup; requires the VM to be configured for ahead-of-time
execution; on success transitions to Ready.  Fails (no transition) if
called out of phase or if the VM is not in the matching execution mode"
(spec.md section 4.1; declaration at src/runtime/dart_isolate.h lines
240-252, implementation absent from src/). -/
def PrepareForRunningFromPrecompiledCode (env : Env) (s : DartIsolate) :
    Bool × DartIsolate :=
  if s.phase_ = Phase.librariesSetup then
    if env.aotConfigured then
      (true, { s with phase_ := Phase.ready,
                      child_isolate_preparer_ := some CodeSource.precompiled })
    else (false, s)
  else (false, s)

/-- Modelled from the spec: `PrepareForKernel(mapping, isLastPiece)` —
"valid only in phase LibrariesSetup; appends `mapping` to
`kernel_buffers`; if `isLastPiece`, attempts to load all accumulated
buffers as libraries and, on success, transitions to Ready.  Calling with
`isLastPiece=false` repeatedly accumulates pieces without phase change.
Fails if library loading reports an error; controller remains in
LibrariesSetup" (spec.md section 4.1; declaration at
src/runtime/dart_isolate.h lines 254-277, implementation absent from
src/).  Each load attempt is recorded in the ghost log `load_attempts`. -/
def PrepareForRunningFromKernel (env : Env) (kernel : Nat)
    (last_piece : Bool) (s : DartIsolate) : Bool × DartIsolate :=
  if s.phase_ = Phase.librariesSetup then
    let bufs := s.kernel_buffers_ ++ [kernel]
    if last_piece then
      let s1 := { s with kernel_buffers_ := bufs,
                         load_attempts := s.load_attempts ++ [bufs] }
      if env.loadOk bufs then
        (true, { s1 with phase_ := Phase.ready,
                         child_isolate_preparer_ :=
                           some (CodeSource.kernels bufs) })
      else (false, s1)
    else (true, { s with kernel_buffers_ := bufs })
  else (false, s)

/-- Modelled from the spec: `PrepareForRunningFromKernels(kernels)` —
batch preparation; "valid only in the LibrariesSetup phase; after a
successful call to this method, the isolate will transition to the Ready
phase" (doc comment at src/runtime/dart_isolate.h lines 279-296,
implementation absent from src/): all supplied mappings are appended to
the accumulated buffers and a single library load is attempted over the
whole accumulation. -/
def PrepareForRunningFromKernels (env : Env) (kernels : List Nat)
    (s : DartIsolate) : Bool × DartIsolate :=
  if s.phase_ = Phase.librariesSetup then
    let bufs := s.kernel_buffers_ ++ kernels
    let s1 := { s with kernel_buffers_ := bufs,
                       load_attempts := s.load_attempts ++ [bufs] }
    if env.loadOk bufs then
      (true, { s1 with phase_ := Phase.ready,
                       child_isolate_preparer_ :=
                         some (CodeSource.kernels bufs) })
    else (false, s1)
  else (false, s)

/-- Modelled from the spec: `Run(entrypointName, args, onRunCallback)` —
"valid only in phase Ready; transitions to Running *before* invoking the
entrypoint (so re-entrant calls during entrypoint execution observe
Running); returns whether entry succeeded.  The controller forbids
concurrent or repeated Run — a second call while already Running or
afterward fails"; an unresolved entrypoint is reported as failure with
phase unchanged (spec.md sections 4.1 and 7; declaration at
src/runtime/dart_isolate.h lines 317-336, implementation absent from
src/).  The ghost log `entry_log` records each entrypoint invocation
together with the phase the entrypoint observes. -/
def Run (env : Env) (entrypoint : String) (s : DartIsolate) :
    Bool × DartIsolate :=
  if s.phase_ = Phase.ready then
    if env.resolves entrypoint then
      let s1 := { s with phase_ := Phase.running }
      (true, { s1 with entry_log := s1.entry_log ++ [(entrypoint, s1.phase_)] })
    else (false, s)
  else (false, s)

/-- Modelled from the spec: `RunFromLibrary(libraryName, entrypointName,
args, onRunCallback)` — "identical contract to Run but resolves the
entrypoint inside a named library rather than the root library" (spec.md
section 4.1; declaration at src/runtime/dart_isolate.h lines 338-360,
implementation absent from src/). -/
def RunFromLibrary (env : Env) (library entrypoint : String)
    (s : DartIsolate) : Bool × DartIsolate :=
  if s.phase_ = Phase.ready then
    if env.resolvesInLibrary library entrypoint then
      let s1 := { s with phase_ := Phase.running }
      (true, { s1 with entry_log :=
                 s1.entry_log ++ [(library ++ ":" ++ entrypoint, s1.phase_)] })
    else (false, s)
  else (false, s)

/-- Modelled from the spec: `Shutdown()` — "valid from any phase except
Shutdown itself; fires every registered shutdown callback exactly once,
in registration order, then transitions to Shutdown.  Idempotent: calling
it again after reaching Shutdown is a no-op that reports success without
re-firing callbacks" (spec.md section 4.1; declaration at
src/runtime/dart_isolate.h lines 362-369, implementation absent from
src/).  Firing a callback is recorded by appending it to the ghost log
`fired_log`. -/
def Shutdown (s : DartIsolate) : Bool × DartIsolate :=
  if s.phase_ = Phase.shutdown then (true, s)
  else (true, { s with phase_ := Phase.shutdown,
                       fired_log := s.fired_log ++ s.shutdown_callbacks_ })

/-- Modelled from the spec: `AddShutdownCallback(action)` — "appends
`action`; legal in any phase prior to Shutdown; if the controller is
already shutting down when called, the action fires immediately instead
of being silently dropped" (spec.md section 4.1; declaration at
src/runtime/dart_isolate.h lines 371-378, implementation absent from
src/). -/
def AddIsolateShutdownCallback (cb : Nat) (s : DartIsolate) : DartIsolate :=
  if s.phase_ = Phase.shutdown then { s with fired_log := s.fired_log ++ [cb] }
  else { s with shutdown_callbacks_ := s.shutdown_callbacks_ ++ [cb] }

/-- `GetIsolateSnapshot` (src/runtime/dart_isolate.h lines 380-386). -/
def GetIsolateSnapshot (s : DartIsolate) : Nat := s.isolate_snapshot_

/-- `GetSharedSnapshot` (src/runtime/dart_isolate.h lines 388-394). -/
def GetSharedSnapshot (s : DartIsolate) : Nat := s.shared_snapshot_

end DartIsolate

/-- Modelled from the spec: an internal transition of the state-machine
table (spec.md section 4.1): it advances the phase from `source` to
`target` and is a guarded no-op in any other phase. -/
def internalAdvance (source target : Phase) (s : DartIsolate) :
    Bool × DartIsolate :=
  if s.phase_ = source then (true, { s with phase_ := target }) else (false, s)

/-- One lifecycle operation applied to a controller: the host-visible
methods of `DartIsolate` plus the internal transitions of the
state-machine table (spec.md section 4.1). -/
inductive Op where
  | internalInit
  | attachHandlers
  | beginLibrariesSetup
  | prepareForRunningFromPrecompiledCode
  | prepareForRunningFromKernel (kernel : Nat) (last_piece : Bool)
  | run (entrypoint : String)
  | runFromLibrary (library entrypoint : String)
  | shutdown
  | addIsolateShutdownCallback (cb : Nat)

/-- Dispatch of one lifecycle operation. -/
def step (env : Env) (op : Op) (s : DartIsolate) : Bool × DartIsolate :=
  match op with
  | .internalInit => internalAdvance Phase.unknown Phase.uninitialized s
  | .attachHandlers => internalAdvance Phase.uninitialized Phase.initialized s
  | .beginLibrariesSetup =>
      internalAdvance Phase.initialized Phase.librariesSetup s
  | .prepareForRunningFromPrecompiledCode =>
      s.PrepareForRunningFromPrecompiledCode env
  | .prepareForRunningFromKernel k last_piece =>
      s.PrepareForRunningFromKernel env k last_piece
  | .run ep => s.Run env ep
  | .runFromLibrary lib ep => s.RunFromLibrary env lib ep
  | .shutdown => s.Shutdown
  | .addIsolateShutdownCallback cb => (true, s.AddIsolateShutdownCallback cb)

/-- Applies a sequence of lifecycle operations, discarding the result
booleans. -/
def runOps (env : Env) (ops : List Op) (s : DartIsolate) : DartIsolate :=
  ops.foldl (fun t op => (step env op t).2) s

/-- Registers a list of shutdown callbacks one by one via
`AddIsolateShutdownCallback`. -/
def registerAll (cbs : List Nat) (s : DartIsolate) : DartIsolate :=
  cbs.foldl (fun t c => t.AddIsolateShutdownCallback c) s

/-- Iterates `Shutdown`, discarding the result booleans. -/
def shutdownIter : Nat → DartIsolate → DartIsolate
  | 0, s => s
  | n + 1, s => shutdownIter n (s.Shutdown).2

/-- Applies `PrepareForRunningFromKernel` with `last_piece = false` to
each mapping of a list in order, accumulating pieces. -/
def accumulatePieces (env : Env) (ks : List Nat) (s : DartIsolate) :
    DartIsolate :=
  ks.foldl (fun t k => (t.PrepareForRunningFromKernel env k false).2) s

/-- Calls `PrepareForRunningFromKernel` on each element of a list in
order, with `last_piece = false` for every element except the final one
and `last_piece = true` for the final element, stopping at the first
failure. -/
def runKernelPieces (env : Env) : List Nat → DartIsolate → Bool × DartIsolate
  | [], s => (true, s)
  | [k], s => s.PrepareForRunningFromKernel env k true
  | k :: k2 :: rest, s =>
      let r := s.PrepareForRunningFromKernel env k false
      if r.1 then runKernelPieces env (k2 :: rest) r.2 else r

/-- Modelled from the spec: the Bridge's construction of a child
controller from a parent association
(`CreateDartVMAndEmbedderObjectPair`, declared at
src/runtime/dart_isolate.h lines 485-495, implementation absent from
src/): "if a parent is supplied, construct a child controller inheriting
the parent's isolate/shared snapshots and invoking the parent's
registered child-preparer to run the child through LibrariesSetup using
the same code source as the parent" (spec.md section 4.2). -/
def createChildController (env : Env) (parent : DartIsolate) : DartIsolate :=
  let child0 : DartIsolate :=
    { phase_ := Phase.unknown
      isolate_snapshot_ := parent.isolate_snapshot_
      shared_snapshot_ := parent.shared_snapshot_
      kernel_buffers_ := []
      shutdown_callbacks_ := []
      child_isolate_preparer_ := none
      fired_log := []
      load_attempts := []
      entry_log := [] }
  let child1 := (internalAdvance Phase.unknown Phase.uninitialized child0).2
  let child2 := (internalAdvance Phase.uninitialized Phase.initialized child1).2
  let child3 :=
    (internalAdvance Phase.initialized Phase.librariesSetup child2).2
  match parent.child_isolate_preparer_ with
  | none => child3
  | some CodeSource.precompiled =>
      (child3.PrepareForRunningFromPrecompiledCode env).2
  | some (CodeSource.kernels ks) =>
      (child3.PrepareForRunningFromKernels env ks).2

/-- Modelled from the spec: `CreateRootIsolate` together with the
registry of associations (spec.md sections 4.2, 4.3 and 7; declaration at
src/runtime/dart_isolate.h lines 192-204, implementation absent from
src/).  The weak handle is `none` when unusable or empty.  With null or
invalid settings, or when the hosting VM rejects the creation, the call
"returns an unusable/empty weak handle" and "must not leave a dangling
association": the registry is returned unchanged. -/
def CreateRootIsolate (settingsValid vmAccepts : Bool)
    (registry : List Nat) (nextId : Nat) : Option Nat × List Nat :=
  if settingsValid then
    if vmAccepts then (some nextId, registry ++ [nextId])
    else (none, registry)
  else (none, registry)

/-- Modelled from the spec: `GetServiceId` — "an opaque identifier
prefixed by a fixed namespace token" (spec.md section 6; declaration at
src/runtime/dart_isolate.h lines 232-238, implementation absent from
src/); the token is pinned to "isolates/" by the embedder test
`IsolateServiceIdSent` (src/shell/platform/embedder/tests/
embedder_unittests.cc lines 264-301). -/
def GetServiceId (isolateNumber : Nat) : String :=
  "isolates/" ++ toString isolateNumber

/-- A fixed environment for concrete evaluations: AOT configured, every
load accepted, every entrypoint resolvable. -/
def envW : Env :=
  { aotConfigured := true
    loadOk := fun _ => true
    resolves := fun _ => true
    resolvesInLibrary := fun _ _ => true }

/-- A concrete controller in a given phase with empty logs, used for
concrete evaluations. -/
def mkController (p : Phase) : DartIsolate :=
  { phase_ := p
    isolate_snapshot_ := 1
    shared_snapshot_ := 2
    kernel_buffers_ := []
    shutdown_callbacks_ := []
    child_isolate_preparer_ := none
    fired_log := []
    load_attempts := []
    entry_log := [] }

/-! ## Helper lemmas -/

theorem Phase.idx_le_six (p : Phase) : p.idx ≤ 6 := by
  cases p <;> simp [Phase.idx]

theorem step_phase_mono (env : Env) (op : Op) (s : DartIsolate) :
    s.phase_.idx ≤ ((step env op s).2).phase_.idx := by
  cases op with
  | internalInit =>
      simp only [step, internalAdvance]
      split
      · next h => simp [h, Phase.idx]
      · exact Nat.le_refl _
  | attachHandlers =>
      simp only [step, internalAdvance]
      split
      · next h => simp [h, Phase.idx]
      · exact Nat.le_refl _
  | beginLibrariesSetup =>
      simp only [step, internalAdvance]
      split
      · next h => simp [h, Phase.idx]
      · exact Nat.le_refl _
  | prepareForRunningFromPrecompiledCode =>
      simp only [step, DartIsolate.PrepareForRunningFromPrecompiledCode]
      split
      · next h =>
          split
          · simp [h, Phase.idx]
          · exact Nat.le_refl _
      · exact Nat.le_refl _
  | prepareForRunningFromKernel k last_piece =>
      simp only [step, DartIsolate.PrepareForRunningFromKernel]
      split
      · next h =>
          split
          · split
            · simp [h, Phase.idx]
            · simp [h, Phase.idx]
          · simp [h, Phase.idx]
      · exact Nat.le_refl _
  | run ep =>
      simp only [step, DartIsolate.Run]
      split
      · next h =>
          split
          · simp [h, Phase.idx]
          · exact Nat.le_refl _
      · exact Nat.le_refl _
  | runFromLibrary lib ep =>
      simp only [step, DartIsolate.RunFromLibrary]
      split
      · next h =>
          split
          · simp [h, Phase.idx]
          · exact Nat.le_refl _
      · exact Nat.le_refl _
  | shutdown =>
      simp only [step, DartIsolate.Shutdown]
      split
      · exact Nat.le_refl _
      · simpa [Phase.idx] using Phase.idx_le_six s.phase_
  | addIsolateShutdownCallback cb =>
      simp only [step, DartIsolate.AddIsolateShutdownCallback]
      split
      · exact Nat.le_refl _
      · exact Nat.le_refl _

theorem runOps_phase_mono (env : Env) (ops : List Op) (s : DartIsolate) :
    s.phase_.idx ≤ (runOps env ops s).phase_.idx := by
  induction ops generalizing s with
  | nil => simp [runOps]
  | cons op ops ih =>
      calc s.phase_.idx ≤ ((step env op s).2).phase_.idx :=
            step_phase_mono env op s
        _ ≤ (runOps env ops (step env op s).2).phase_.idx :=
            ih (step env op s).2
        _ = (runOps env (op :: ops) s).phase_.idx := by simp [runOps]

theorem Run_not_ready (env : Env) (ep : String) (s : DartIsolate)
    (h : s.phase_ ≠ Phase.ready) : s.Run env ep = (false, s) := by
  unfold DartIsolate.Run
  simp [h]

theorem RunFromLibrary_not_ready (env : Env) (lib ep : String)
    (s : DartIsolate) (h : s.phase_ ≠ Phase.ready) :
    s.RunFromLibrary env lib ep = (false, s) := by
  unfold DartIsolate.RunFromLibrary
  simp [h]

theorem PrepareForRunningFromPrecompiledCode_not_setup (env : Env)
    (s : DartIsolate) (h : s.phase_ ≠ Phase.librariesSetup) :
    s.PrepareForRunningFromPrecompiledCode env = (false, s) := by
  unfold DartIsolate.PrepareForRunningFromPrecompiledCode
  simp [h]

theorem PrepareForRunningFromKernel_not_setup (env : Env) (k : Nat)
    (last_piece : Bool) (s : DartIsolate)
    (h : s.phase_ ≠ Phase.librariesSetup) :
    s.PrepareForRunningFromKernel env k last_piece = (false, s) := by
  unfold DartIsolate.PrepareForRunningFromKernel
  simp [h]

theorem Shutdown_of_shutdown (s : DartIsolate)
    (h : s.phase_ = Phase.shutdown) : s.Shutdown = (true, s) := by
  unfold DartIsolate.Shutdown
  simp [h]

theorem Shutdown_of_not_shutdown (s : DartIsolate)
    (h : s.phase_ ≠ Phase.shutdown) :
    s.Shutdown = (true, { s with
                            phase_ := Phase.shutdown,
                            fired_log := s.fired_log ++ s.shutdown_callbacks_ }) := by
  unfold DartIsolate.Shutdown
  simp [h]

theorem shutdownIter_fixed (n : Nat) (s : DartIsolate)
    (h : s.phase_ = Phase.shutdown) : shutdownIter n s = s := by
  induction n with
  | zero => rfl
  | succ n ih => simp [shutdownIter, Shutdown_of_shutdown s h, ih]

theorem AddIsolateShutdownCallback_of_not_shutdown (cb : Nat)
    (s : DartIsolate) (h : s.phase_ ≠ Phase.shutdown) :
    s.AddIsolateShutdownCallback cb =
      { s with shutdown_callbacks_ := s.shutdown_callbacks_ ++ [cb] } := by
  unfold DartIsolate.AddIsolateShutdownCallback
  simp [h]

theorem registerAll_of_not_shutdown (cbs : List Nat) (s : DartIsolate) :
    s.phase_ ≠ Phase.shutdown →
    registerAll cbs s =
      { s with shutdown_callbacks_ := s.shutdown_callbacks_ ++ cbs } := by
  induction cbs generalizing s with
  | nil => intro _; simp [registerAll]
  | cons c cbs ih =>
      intro h
      have hstep := AddIsolateShutdownCallback_of_not_shutdown c s h
      have hfold : registerAll (c :: cbs) s =
          registerAll cbs (s.AddIsolateShutdownCallback c) := by
        simp [registerAll]
      have hphase : (s.AddIsolateShutdownCallback c).phase_ ≠ Phase.shutdown := by
        rw [hstep]; exact h
      rw [hfold, ih _ hphase, hstep]
      simp

theorem accumulatePieces_eq (env : Env) (ks : List Nat) (s : DartIsolate) :
    s.phase_ = Phase.librariesSetup →
    accumulatePieces env ks s =
      { s with kernel_buffers_ := s.kernel_buffers_ ++ ks } := by
  induction ks generalizing s with
  | nil => intro _; simp [accumulatePieces]
  | cons k ks ih =>
      intro h
      have hstep : s.PrepareForRunningFromKernel env k false =
          (true, { s with kernel_buffers_ := s.kernel_buffers_ ++ [k] }) := by
        unfold DartIsolate.PrepareForRunningFromKernel
        simp [h]
      have hfold : accumulatePieces env (k :: ks) s =
          accumulatePieces env ks (s.PrepareForRunningFromKernel env k false).2 := by
        simp [accumulatePieces]
      have hphase :
          ((s.PrepareForRunningFromKernel env k false).2).phase_ =
            Phase.librariesSetup := by
        rw [hstep]; exact h
      rw [hfold, ih _ hphase, hstep]
      simp

theorem PrepareForRunningFromKernel_last_success (env : Env) (k : Nat)
    (s : DartIsolate) (h : s.phase_ = Phase.librariesSetup)
    (hl : env.loadOk (s.kernel_buffers_ ++ [k]) = true) :
    s.PrepareForRunningFromKernel env k true =
      (true, { s with
                 phase_ := Phase.ready,
                 kernel_buffers_ := s.kernel_buffers_ ++ [k],
                 child_isolate_preparer_ :=
                   some (CodeSource.kernels (s.kernel_buffers_ ++ [k])),
                 load_attempts := s.load_attempts ++ [s.kernel_buffers_ ++ [k]] }) := by
  unfold DartIsolate.PrepareForRunningFromKernel
  simp [h, hl]

theorem PrepareForRunningFromKernel_last_failure (env : Env) (k : Nat)
    (s : DartIsolate) (h : s.phase_ = Phase.librariesSetup)
    (hl : env.loadOk (s.kernel_buffers_ ++ [k]) = false) :
    s.PrepareForRunningFromKernel env k true =
      (false, { s with
                  kernel_buffers_ := s.kernel_buffers_ ++ [k],
                  load_attempts := s.load_attempts ++ [s.kernel_buffers_ ++ [k]] }) := by
  unfold DartIsolate.PrepareForRunningFromKernel
  simp [h, hl]

/-! ## Claim theorems -/

/-- C1: For every controller and every sequence of lifecycle operations
applied to it, the sequence of observed phases is non-decreasing under
the total order Unknown < Uninitialized < Initialized < LibrariesSetup <
Ready < Running < Shutdown; no operation ever moves the phase
backward. -/
theorem phases_nondecreasing_along_op_sequences (env : Env)
    (ops₁ ops₂ : List Op) (s : DartIsolate) :
    (runOps env ops₁ s).phase_.idx ≤ (runOps env (ops₁ ++ ops₂) s).phase_.idx := by
  have h : runOps env (ops₁ ++ ops₂) s = runOps env ops₂ (runOps env ops₁ s) := by
    simp [runOps, List.foldl_append]
  rw [h]
  exact runOps_phase_mono env ops₂ (runOps env ops₁ s)

/-- C2: For every controller in phase Ready with a resolvable entrypoint,
the first call to Run (or RunFromLibrary) succeeds and transitions the
phase to Running before the entrypoint is invoked — the invocation
recorded in the entry log observes phase Running — and any second call to
Run on the same controller, made while it is Running or in any later
phase, returns failure and leaves the phase at Running. -/
theorem run_ready_to_running_once (env : Env) (ep : String)
    (s : DartIsolate) (hready : s.phase_ = Phase.ready)
    (hres : env.resolves ep = true) :
    (s.Run env ep).1 = true ∧
    ((s.Run env ep).2).phase_ = Phase.running ∧
    ((s.Run env ep).2).entry_log = s.entry_log ++ [(ep, Phase.running)] ∧
    (∀ ep2, ((s.Run env ep).2).Run env ep2 = (false, (s.Run env ep).2)) ∧
    (∀ t : DartIsolate, Phase.running.idx ≤ t.phase_.idx →
      ∀ ep2, t.Run env ep2 = (false, t)) ∧
    (∀ lib, env.resolvesInLibrary lib ep = true →
      (s.RunFromLibrary env lib ep).1 = true ∧
      ((s.RunFromLibrary env lib ep).2).phase_ = Phase.running ∧
      ∀ lib2 ep2,
        ((s.RunFromLibrary env lib ep).2).RunFromLibrary env lib2 ep2 =
          (false, (s.RunFromLibrary env lib ep).2)) := by
  have hgen : ∀ t : DartIsolate, Phase.running.idx ≤ t.phase_.idx →
      ∀ ep2, t.Run env ep2 = (false, t) := by
    intro t ht ep2
    apply Run_not_ready
    intro hq
    rw [hq] at ht
    simp [Phase.idx] at ht
  have hrun : s.Run env ep = (true, { s with
      phase_ := Phase.running,
      entry_log := s.entry_log ++ [(ep, Phase.running)] }) := by
    unfold DartIsolate.Run
    simp [hready, hres]
  refine ⟨by rw [hrun], by rw [hrun], by rw [hrun], ?_, hgen, ?_⟩
  · intro ep2
    apply Run_not_ready
    rw [hrun]
    simp
  · intro lib hlib
    have hrfl : s.RunFromLibrary env lib ep = (true, { s with
        phase_ := Phase.running,
        entry_log := s.entry_log ++ [(lib ++ ":" ++ ep, Phase.running)] }) := by
      unfold DartIsolate.RunFromLibrary
      simp [hready, hlib]
    refine ⟨by rw [hrfl], by rw [hrfl], ?_⟩
    intro lib2 ep2
    apply RunFromLibrary_not_ready
    rw [hrfl]
    simp

/-- Witness for C2 at a concrete controller in phase Ready, entrypoint
"main", with every entrypoint resolvable. -/
theorem run_ready_to_running_once_witness :
    ((mkController Phase.ready).Run envW "main").1 = true ∧
    (((mkController Phase.ready).Run envW "main").2).phase_ = Phase.running ∧
    (((mkController Phase.ready).Run envW "main").2).entry_log =
      (mkController Phase.ready).entry_log ++ [("main", Phase.running)] ∧
    (∀ ep2, (((mkController Phase.ready).Run envW "main").2).Run envW ep2 =
      (false, ((mkController Phase.ready).Run envW "main").2)) ∧
    (∀ t : DartIsolate, Phase.running.idx ≤ t.phase_.idx →
      ∀ ep2, t.Run envW ep2 = (false, t)) ∧
    (∀ lib, envW.resolvesInLibrary lib "main" = true →
      ((mkController Phase.ready).RunFromLibrary envW lib "main").1 = true ∧
      (((mkController Phase.ready).RunFromLibrary envW lib "main").2).phase_ =
        Phase.running ∧
      ∀ lib2 ep2,
        (((mkController Phase.ready).RunFromLibrary envW lib "main").2).RunFromLibrary
            envW lib2 ep2 =
          (false, ((mkController Phase.ready).RunFromLibrary envW lib "main").2)) :=
  run_ready_to_running_once envW "main" (mkController Phase.ready) rfl rfl

/-- C3: For every controller and every number of Shutdown invocations,
each callback registered via AddShutdownCallback fires exactly once in
total, in registration order; the first Shutdown from any phase other
than Shutdown fires them and transitions the phase to Shutdown, and every
subsequent Shutdown call is a no-op that reports success without
re-firing any callback. -/
theorem shutdown_fires_callbacks_exactly_once (s : DartIsolate)
    (cbs : List Nat) (n : Nat) (h0 : s.phase_ ≠ Phase.shutdown)
    (h1 : s.shutdown_callbacks_ = []) :
    ((registerAll cbs s).Shutdown).1 = true ∧
    (((registerAll cbs s).Shutdown).2).phase_ = Phase.shutdown ∧
    (((registerAll cbs s).Shutdown).2).fired_log = s.fired_log ++ cbs ∧
    shutdownIter n (((registerAll cbs s).Shutdown).2) =
      ((registerAll cbs s).Shutdown).2 ∧
    (((registerAll cbs s).Shutdown).2).Shutdown =
      (true, ((registerAll cbs s).Shutdown).2) := by
  have hreg := registerAll_of_not_shutdown cbs s h0
  simp only [h1, List.nil_append] at hreg
  rw [hreg]
  have hph : ({ s with shutdown_callbacks_ := cbs } : DartIsolate).phase_ ≠
      Phase.shutdown := h0
  rw [Shutdown_of_not_shutdown _ hph]
  exact ⟨rfl, rfl, rfl, shutdownIter_fixed n _ rfl, Shutdown_of_shutdown _ rfl⟩

/-- Witness for C3 at a concrete controller in phase Ready with two
registered callbacks and three extra Shutdown invocations. -/
theorem shutdown_fires_callbacks_exactly_once_witness :
    ((registerAll [10, 20] (mkController Phase.ready)).Shutdown).1 = true ∧
    (((registerAll [10, 20] (mkController Phase.ready)).Shutdown).2).phase_ =
      Phase.shutdown ∧
    (((registerAll [10, 20] (mkController Phase.ready)).Shutdown).2).fired_log =
      (mkController Phase.ready).fired_log ++ [10, 20] ∧
    shutdownIter 3 (((registerAll [10, 20] (mkController Phase.ready)).Shutdown).2) =
      ((registerAll [10, 20] (mkController Phase.ready)).Shutdown).2 ∧
    (((registerAll [10, 20] (mkController Phase.ready)).Shutdown).2).Shutdown =
      (true, ((registerAll [10, 20] (mkController Phase.ready)).Shutdown).2) :=
  shutdown_fires_callbacks_exactly_once (mkController Phase.ready) [10, 20] 3
    (by decide) rfl

/-- C4: For every controller in phase LibrariesSetup and every sequence
of PrepareForKernel calls whose isLastPiece flags are false for all but
the final call: each call appends its mapping to kernel_buffers in
submission order and causes no phase change until the call with
isLastPiece set, at which point library loading is attempted exactly once
over all accumulated buffers in submission order; on load success the
phase becomes Ready, and on load failure the call returns failure and the
controller remains in LibrariesSetup. -/
theorem kernel_pieces_accumulate_then_load_once (env : Env)
    (init : List Nat) (k : Nat) (s : DartIsolate)
    (h : s.phase_ = Phase.librariesSetup) :
    accumulatePieces env init s =
      { s with kernel_buffers_ := s.kernel_buffers_ ++ init } ∧
    (accumulatePieces env init s).phase_ = Phase.librariesSetup ∧
    (accumulatePieces env init s).load_attempts = s.load_attempts ∧
    (((accumulatePieces env init s).PrepareForRunningFromKernel env k true).2).load_attempts =
      s.load_attempts ++ [s.kernel_buffers_ ++ init ++ [k]] ∧
    (env.loadOk (s.kernel_buffers_ ++ init ++ [k]) = true →
      ((accumulatePieces env init s).PrepareForRunningFromKernel env k true).1 =
        true ∧
      (((accumulatePieces env init s).PrepareForRunningFromKernel env k true).2).phase_ =
        Phase.ready) ∧
    (env.loadOk (s.kernel_buffers_ ++ init ++ [k]) = false →
      ((accumulatePieces env init s).PrepareForRunningFromKernel env k true).1 =
        false ∧
      (((accumulatePieces env init s).PrepareForRunningFromKernel env k true).2).phase_ =
        Phase.librariesSetup ∧
      (((accumulatePieces env init s).PrepareForRunningFromKernel env k true).2).kernel_buffers_ =
        s.kernel_buffers_ ++ init ++ [k]) := by
  have hacc := accumulatePieces_eq env init s h
  have hph : ({ s with kernel_buffers_ := s.kernel_buffers_ ++ init } :
      DartIsolate).phase_ = Phase.librariesSetup := h
  refine ⟨hacc, by rw [hacc]; exact h, by rw [hacc], ?_, ?_, ?_⟩
  · rw [hacc]
    cases hl : env.loadOk (s.kernel_buffers_ ++ init ++ [k]) with
    | true =>
        rw [PrepareForRunningFromKernel_last_success env k _ hph
          (by simpa [List.append_assoc] using hl)]
    | false =>
        rw [PrepareForRunningFromKernel_last_failure env k _ hph
          (by simpa [List.append_assoc] using hl)]
  · intro hl
    rw [hacc]
    rw [PrepareForRunningFromKernel_last_success env k _ hph
      (by simpa [List.append_assoc] using hl)]
    exact ⟨rfl, rfl⟩
  · intro hl
    rw [hacc]
    rw [PrepareForRunningFromKernel_last_failure env k _ hph
      (by simpa [List.append_assoc] using hl)]
    refine ⟨rfl, h, by simp [List.append_assoc]⟩

/-- Witness for C4 at a concrete controller in phase LibrariesSetup with
pieces 1, 2 accumulated and final piece 3, every load accepted. -/
theorem kernel_pieces_accumulate_then_load_once_witness :
    accumulatePieces envW [1, 2] (mkController Phase.librariesSetup) =
      { mkController Phase.librariesSetup with
          kernel_buffers_ :=
            (mkController Phase.librariesSetup).kernel_buffers_ ++ [1, 2] } ∧
    (accumulatePieces envW [1, 2] (mkController Phase.librariesSetup)).phase_ =
      Phase.librariesSetup ∧
    (accumulatePieces envW [1, 2] (mkController Phase.librariesSetup)).load_attempts =
      (mkController Phase.librariesSetup).load_attempts ∧
    (((accumulatePieces envW [1, 2]
        (mkController Phase.librariesSetup)).PrepareForRunningFromKernel envW 3
        true).2).load_attempts =
      (mkController Phase.librariesSetup).load_attempts ++
        [(mkController Phase.librariesSetup).kernel_buffers_ ++ [1, 2] ++ [3]] ∧
    (envW.loadOk
        ((mkController Phase.librariesSetup).kernel_buffers_ ++ [1, 2] ++ [3]) =
          true →
      ((accumulatePieces envW [1, 2]
          (mkController Phase.librariesSetup)).PrepareForRunningFromKernel envW 3
          true).1 = true ∧
      (((accumulatePieces envW [1, 2]
          (mkController Phase.librariesSetup)).PrepareForRunningFromKernel envW 3
          true).2).phase_ = Phase.ready) ∧
    (envW.loadOk
        ((mkController Phase.librariesSetup).kernel_buffers_ ++ [1, 2] ++ [3]) =
          false →
      ((accumulatePieces envW [1, 2]
          (mkController Phase.librariesSetup)).PrepareForRunningFromKernel envW 3
          true).1 = false ∧
      (((accumulatePieces envW [1, 2]
          (mkController Phase.librariesSetup)).PrepareForRunningFromKernel envW 3
          true).2).phase_ = Phase.librariesSetup ∧
      (((accumulatePieces envW [1, 2]
          (mkController Phase.librariesSetup)).PrepareForRunningFromKernel envW 3
          true).2).kernel_buffers_ =
        (mkController Phase.librariesSetup).kernel_buffers_ ++ [1, 2] ++ [3]) :=
  kernel_pieces_accumulate_then_load_once envW [1, 2] 3
    (mkController Phase.librariesSetup) rfl

/-- C5: For every controller and every lifecycle operation among
PrepareForPrecompiledCode, PrepareForKernel, Run, and RunFromLibrary,
invoking the operation while the controller is not in that operation's
required phase returns a boolean failure and leaves the controller's
entire state unchanged — no phase change and no partial effect. -/
theorem out_of_phase_operations_fail_without_effects (env : Env) (k : Nat)
    (last_piece : Bool) (ep lib : String) (s : DartIsolate) :
    (s.phase_ ≠ Phase.librariesSetup →
      s.PrepareForRunningFromPrecompiledCode env = (false, s) ∧
      s.PrepareForRunningFromKernel env k last_piece = (false, s)) ∧
    (s.phase_ ≠ Phase.ready →
      s.Run env ep = (false, s) ∧ s.RunFromLibrary env lib ep = (false, s)) :=
  ⟨fun h => ⟨PrepareForRunningFromPrecompiledCode_not_setup env s h,
             PrepareForRunningFromKernel_not_setup env k last_piece s h⟩,
   fun h => ⟨Run_not_ready env ep s h, RunFromLibrary_not_ready env lib ep s h⟩⟩

/-- Witness for C5 at a concrete controller in phase Shutdown, which is
the required phase of none of the four operations. -/
theorem out_of_phase_operations_fail_without_effects_witness :
    (mkController Phase.shutdown).PrepareForRunningFromPrecompiledCode envW =
      (false, mkController Phase.shutdown) ∧
    (mkController Phase.shutdown).PrepareForRunningFromKernel envW 7 true =
      (false, mkController Phase.shutdown) ∧
    (mkController Phase.shutdown).Run envW "main" =
      (false, mkController Phase.shutdown) ∧
    (mkController Phase.shutdown).RunFromLibrary envW "lib" "main" =
      (false, mkController Phase.shutdown) := by
  have h := out_of_phase_operations_fail_without_effects envW 7 true "main"
    "lib" (mkController Phase.shutdown)
  exact ⟨(h.1 (by decide)).1, (h.1 (by decide)).2,
         (h.2 (by decide)).1, (h.2 (by decide)).2⟩

/-- C6: For every controller that has already completed its transition to
the Shutdown phase, a subsequent call to AddShutdownCallback executes the
supplied action immediately and synchronously (it is appended to the
fired log in the same call), rather than dropping it or deferring it; in
any phase prior to Shutdown the same call only appends the action for
later firing. -/
theorem add_shutdown_callback_fires_immediately_after_shutdown (cb : Nat)
    (s : DartIsolate) :
    (s.phase_ = Phase.shutdown →
      s.AddIsolateShutdownCallback cb =
        { s with fired_log := s.fired_log ++ [cb] }) ∧
    (s.phase_ ≠ Phase.shutdown →
      s.AddIsolateShutdownCallback cb =
        { s with shutdown_callbacks_ := s.shutdown_callbacks_ ++ [cb] }) := by
  constructor
  · intro h
    unfold DartIsolate.AddIsolateShutdownCallback
    simp [h]
  · exact AddIsolateShutdownCallback_of_not_shutdown cb s

/-- Witness for C6 at concrete controllers in phases Shutdown and
Ready. -/
theorem add_shutdown_callback_fires_immediately_after_shutdown_witness :
    (mkController Phase.shutdown).AddIsolateShutdownCallback 7 =
      { mkController Phase.shutdown with
          fired_log := (mkController Phase.shutdown).fired_log ++ [7] } ∧
    (mkController Phase.ready).AddIsolateShutdownCallback 7 =
      { mkController Phase.ready with
          shutdown_callbacks_ :=
            (mkController Phase.ready).shutdown_callbacks_ ++ [7] } :=
  ⟨(add_shutdown_callback_fires_immediately_after_shutdown 7
      (mkController Phase.shutdown)).1 rfl,
   (add_shutdown_callback_fires_immediately_after_shutdown 7
      (mkController Phase.ready)).2 (by decide)⟩

/-- C7: For every child controller created by the Bridge with a parent
association, the child's isolate snapshot and shared snapshot are the
very same reference-counted Snapshot objects held by the parent:
identity-equal references (equal reference identities in the model), not
copies. -/
theorem child_controller_inherits_parent_snapshots (env : Env)
    (parent : DartIsolate) :
    (createChildController env parent).GetIsolateSnapshot =
      parent.GetIsolateSnapshot ∧
    (createChildController env parent).GetSharedSnapshot =
      parent.GetSharedSnapshot := by
  unfold DartIsolate.GetIsolateSnapshot DartIsolate.GetSharedSnapshot
    createChildController
  cases hp : parent.child_isolate_preparer_ with
  | none => simp [internalAdvance]
  | some cs =>
      cases cs with
      | precompiled =>
          cases ha : env.aotConfigured <;>
            simp [internalAdvance,
              DartIsolate.PrepareForRunningFromPrecompiledCode, ha]
      | kernels ks =>
          cases hl : env.loadOk ks <;>
            simp [internalAdvance, DartIsolate.PrepareForRunningFromKernels, hl]

/-- C8: For every invocation of CreateRootIsolate with null or invalid
settings, the call returns an unusable/empty weak handle (`none`) rather
than crashing — the model is a total function — and no association for
the failed isolate is left behind in the registry, which is returned
unchanged. -/
theorem create_root_isolate_invalid_settings_empty_handle
    (settingsValid vmAccepts : Bool) (registry : List Nat) (nextId : Nat)
    (h : settingsValid = false) :
    CreateRootIsolate settingsValid vmAccepts registry nextId =
      (none, registry) := by
  unfold CreateRootIsolate
  simp [h]

/-- Witness for C8 at a concrete invalid-settings call against a
one-element registry. -/
theorem create_root_isolate_invalid_settings_empty_handle_witness :
    CreateRootIsolate false true [5] 9 = (none, [5]) :=
  create_root_isolate_invalid_settings_empty_handle false true [5] 9 rfl

/-- C9: For every running isolate, GetServiceId returns an identifier
string that begins with the fixed namespace token "isolates/". -/
theorem service_id_begins_with_isolates_token (n : Nat) :
    ∃ rest : List Char, (GetServiceId n).data = "isolates/".data ++ rest := by
  refine ⟨(toString n).data, ?_⟩
  unfold GetServiceId
  exact String.data_append "isolates/" (toString n)

/-- C10: For every controller in phase LibrariesSetup and every non-empty
list of kernel mappings, calling PrepareForRunningFromKernels with that
list produces the same result and final controller state as calling
PrepareForRunningFromKernel on each element in order with last_piece
false for every element except the final one and last_piece true for the
final element. -/
theorem batch_kernels_matches_piecewise (env : Env) (ks : List Nat)
    (s : DartIsolate) (hne : ks ≠ []) (h : s.phase_ = Phase.librariesSetup) :
    s.PrepareForRunningFromKernels env ks = runKernelPieces env ks s := by
  revert hne h
  induction ks generalizing s with
  | nil => intro hne _; exact absurd rfl hne
  | cons k rest ih =>
      intro _ h
      cases rest with
      | nil =>
          unfold runKernelPieces DartIsolate.PrepareForRunningFromKernels
            DartIsolate.PrepareForRunningFromKernel
          simp [h]
      | cons k2 rest2 =>
          have hstep : s.PrepareForRunningFromKernel env k false =
              (true, { s with kernel_buffers_ := s.kernel_buffers_ ++ [k] }) := by
            unfold DartIsolate.PrepareForRunningFromKernel
            simp [h]
          have hrhs : runKernelPieces env (k :: k2 :: rest2) s =
              runKernelPieces env (k2 :: rest2)
                { s with kernel_buffers_ := s.kernel_buffers_ ++ [k] } := by
            simp only [runKernelPieces]
            rw [hstep]
            simp
          have hih := ih { s with kernel_buffers_ := s.kernel_buffers_ ++ [k] }
            (by simp) h
          rw [hrhs, ← hih]
          unfold DartIsolate.PrepareForRunningFromKernels
          simp [h, List.append_assoc]

/-- Witness for C10 at a concrete controller in phase LibrariesSetup and
the three-piece kernel list [1, 2, 3]. -/
theorem batch_kernels_matches_piecewise_witness :
    (mkController Phase.librariesSetup).PrepareForRunningFromKernels envW
        [1, 2, 3] =
      runKernelPieces envW [1, 2, 3] (mkController Phase.librariesSetup) :=
  batch_kernels_matches_piecewise envW [1, 2, 3]
    (mkController Phase.librariesSetup) (by decide) rfl

end Engine
